import Mathlib

/-!
# Verification of the prompter metering / dispatch core

Shallow embedding of the quota, billing-period, idempotency and job-dispatch
modules of the repository (`apps/api/app/services/quotas.py`,
`apps/api/app/deps/quotas.py`, `apps/api/app/services/idempotency.py`,
`apps/api/app/models/idempotency.py`, `apps/api/app/services/job_queue.py`,
`apps/worker/app/main.py`), together with theorems settling the stated
properties of those modules.

Database rows are modelled as Lean structures, tables as lists of rows,
`fastapi.HTTPException` as an error value threaded through `Except`, and the
SQLAlchemy session as explicit state passing: a function that may raise
returns the error together with the unchanged state, exactly mirroring the
point in the Python control flow at which the exception is raised.
-/

namespace Prompter

/-- `fastapi.HTTPException` together with the structured `detail` dict used by
the quota and idempotency services (`code`, `resource`, `limit`, `current`). -/
structure HTTPError where
  status : Nat
  code : String
  resource : String := ""
  limit : Option Int := none
  current : Option Int := none
deriving DecidableEq, Repr

/-- `app/config.py`: `WARN_THRESHOLD = 0.80`.  Real-number division in
`check_warning` is modelled exactly over `ℚ`. -/
def WARN_THRESHOLD : ℚ := 0.80

/-- `app/config.py`: `MODEL_WEIGHTS` — scan credit weight per model name. -/
def MODEL_WEIGHTS : List (String × Nat) :=
  [("chatgpt", 1), ("gpt-4", 1), ("gpt-3.5", 1), ("gemini", 1), ("gemini-pro", 1),
   ("perplexity_online", 2), ("perplexity-sonar", 2),
   ("llama-3.1-sonar-large-128k-online", 2), ("llama-3.1-sonar-small-128k-online", 2)]

/-- Python `MODEL_WEIGHTS.get(model_name, 1)`. -/
def weightLookup (model_name : String) : Nat :=
  match MODEL_WEIGHTS.find? (fun p => p.1 == model_name) with
  | some p => p.2
  | none => 1

/-- Python `str.lower()` (the model names involved are ASCII). -/
def pyLower (s : String) : String := String.mk (s.toList.map Char.toLower)

/-- Does `pat` occur at the head of `l`? -/
def startsWithB : List Char → List Char → Bool
  | [], _ => true
  | _ :: _, [] => false
  | a :: as, b :: bs => a == b && startsWithB as bs

/-- Does `pat` occur contiguously anywhere in `l`? -/
def hasInfixB (pat : List Char) : List Char → Bool
  | [] => startsWithB pat []
  | b :: bs => startsWithB pat (b :: bs) || hasInfixB pat bs

/-- Python `pat in s` substring containment. -/
def pyContains (s pat : String) : Bool := hasInfixB pat.toList s.toList

/-- `app/config.py`: one plan row of `PLAN_QUOTAS` (`None` = unlimited). -/
structure PlanQuota where
  brands : Option Int
  prompts : Option Int
  scans : Option Int
  ai_pages : Option Int
  seats : Option Int
  retention_days : Option Int
deriving DecidableEq, Repr

/-- `PLAN_QUOTAS["starter"]`. -/
def starterPlan : PlanQuota :=
  { brands := some 1, prompts := some 30, scans := some 1000,
    ai_pages := some 3, seats := some 3, retention_days := some 30 }

/-- `PLAN_QUOTAS["enterprise"]` — all limits are the unlimited sentinel. -/
def enterprisePlan : PlanQuota :=
  { brands := none, prompts := none, scans := none,
    ai_pages := none, seats := none, retention_days := none }

/-- `app/models/plan.py` `OrgMonthlyUsage`: the three usage counters of the
ledger row for one (org, billing period).  The key columns and period bounds
are tracked separately where a claim needs them. -/
structure OrgMonthlyUsage where
  scans_used : Int
  prompts_used : Int
  ai_pages_generated : Int
deriving DecidableEq, Repr

/-- Usage-info dict returned by the quota dependencies. -/
structure UsageInfo where
  used : Int
  limit : Option Int
deriving DecidableEq, Repr

/-- `app/services/quotas.py` `assert_within_limit`: raises 429 when
`limit is not None` and `current >= limit`, otherwise returns. -/
def assert_within_limit (current : Int) (limit : Option Int) (resource : String) :
    Except HTTPError Unit :=
  match limit with
  | none => Except.ok ()
  | some l =>
      if current ≥ l then
        Except.error { status := 429, code := "LIMIT_EXCEEDED", resource := resource,
                       limit := some l, current := some current }
      else
        Except.ok ()

/-- `app/services/quotas.py` `check_warning`: `None` limit and `0` limit give
`False`; otherwise `current / limit >= WARN_THRESHOLD` (exact division). -/
def check_warning (current : Int) (limit : Option Int) : Bool :=
  match limit with
  | none => false
  | some l =>
      if l = 0 then false
      else decide ((current : ℚ) / (l : ℚ) ≥ WARN_THRESHOLD)

/-- `app/deps/quotas.py` `require_scan_credit`, for an org already resolved to
its locked ledger row `usage` and plan scan limit `plan_scans`.  Computes the
model weight (with the `"online"` fallback), checks
`assert_within_limit(usage.scans_used + credits_needed, plan["scans"])`, and
only then commits the increment.  The returned second component is the ledger
row after the call (unchanged when the check raises, since the Python raise
happens before the mutation). -/
def require_scan_credit (usage : OrgMonthlyUsage) (model_name : String)
    (plan_scans : Option Int) : Except HTTPError (UsageInfo × Int) × OrgMonthlyUsage :=
  let w : Int := weightLookup model_name
  let credits_needed : Int := if w == 1 && pyContains (pyLower model_name) "online" then 2 else w
  match assert_within_limit (usage.scans_used + credits_needed) plan_scans "Scan" with
  | Except.error e => (Except.error e, usage)
  | Except.ok _ =>
      let usage' := { usage with scans_used := usage.scans_used + credits_needed }
      (Except.ok ({ used := usage'.scans_used, limit := plan_scans }, credits_needed), usage')

/-- `app/deps/quotas.py` `require_page_slot`: checks
`assert_within_limit(usage.ai_pages_generated, plan["ai_pages"])` and then
increments the counter by one. -/
def require_page_slot (usage : OrgMonthlyUsage) (plan_ai_pages : Option Int) :
    Except HTTPError UsageInfo × OrgMonthlyUsage :=
  match assert_within_limit usage.ai_pages_generated plan_ai_pages "AI page generation" with
  | Except.error e => (Except.error e, usage)
  | Except.ok _ =>
      let usage' := { usage with ai_pages_generated := usage.ai_pages_generated + 1 }
      (Except.ok { used := usage'.ai_pages_generated, limit := plan_ai_pages }, usage')

/-- C1: with scan limit 1000 and `scans_used = 999`, a 1-credit (`"gpt-4"`)
reservation is REJECTED by the code — `assert_within_limit` receives
`999 + 1 = 1000` and raises on `current >= limit` — leaving the ledger at 999
and reporting `current = 1000`, whereas the claim (the spec's concrete
scenario, and the repository's own concurrency test with "1 credit left")
requires `Ok(used = 1000)`. -/
theorem scan_reservation_rejected_at_exact_limit :
    require_scan_credit { scans_used := 999, prompts_used := 0, ai_pages_generated := 0 }
        "gpt-4" starterPlan.scans =
      (Except.error { status := 429, code := "LIMIT_EXCEEDED", resource := "Scan",
                      limit := some 1000, current := some 1000 },
       { scans_used := 999, prompts_used := 0, ai_pages_generated := 0 }) := by
  rfl

/-- C7: a rejected reservation is atomic — whenever `require_scan_credit` or
`require_page_slot` raises, the ledger row it returns is exactly the input row
(all three counters unchanged). -/
theorem rejected_reservation_leaves_ledger_unchanged (usage : OrgMonthlyUsage)
    (model_name : String) (plan_scans plan_ai_pages : Option Int) :
    (∀ e out, require_scan_credit usage model_name plan_scans = (Except.error e, out) →
      out = usage) ∧
    (∀ e out, require_page_slot usage plan_ai_pages = (Except.error e, out) →
      out = usage) := by
  constructor
  · intro e out h
    simp only [require_scan_credit] at h
    split at h
    · injection h with h1 h2
      exact h2.symm
    · injection h with h1 h2
      cases h1
  · intro e out h
    simp only [require_page_slot] at h
    split at h
    · injection h with h1 h2
      exact h2.symm
    · injection h with h1 h2
      cases h1

/-- Witness for C7: a concrete rejected reservation (ledger at the limit)
raises 429 and leaves the row unchanged. -/
theorem rejected_reservation_leaves_ledger_unchanged_witness :
    require_scan_credit { scans_used := 1000, prompts_used := 0, ai_pages_generated := 3 }
        "gpt-4" (some 1000) =
      (Except.error { status := 429, code := "LIMIT_EXCEEDED", resource := "Scan",
                      limit := some 1000, current := some 1001 },
       { scans_used := 1000, prompts_used := 0, ai_pages_generated := 3 }) ∧
    ({ scans_used := 1000, prompts_used := 0, ai_pages_generated := 3 } : OrgMonthlyUsage) =
      { scans_used := 1000, prompts_used := 0, ai_pages_generated := 3 } :=
  ⟨by rfl,
   (rejected_reservation_leaves_ledger_unchanged
      { scans_used := 1000, prompts_used := 0, ai_pages_generated := 3 }
      "gpt-4" (some 1000) (some 3)).1 _ _ (by rfl)⟩

/-- C10: `check_warning` is total and never divides by zero — the unlimited
sentinel and a zero limit both give `false`, and any nonzero limit gives
exactly the predicate `current / limit ≥ 0.80`. -/
theorem check_warning_total_and_guarded (current l : Int) :
    check_warning current none = false ∧
    check_warning current (some 0) = false ∧
    (l ≠ 0 → check_warning current (some l) =
      decide ((current : ℚ) / (l : ℚ) ≥ WARN_THRESHOLD)) := by
  refine ⟨rfl, rfl, fun h => ?_⟩
  simp only [check_warning]
  rw [if_neg h]

/-- Witness for C10 at `current = 8`, `limit = 10`. -/
theorem check_warning_total_and_guarded_witness :
    (10 : Int) ≠ 0 ∧
    check_warning 8 (some 10) = decide ((8 : ℚ) / (10 : ℚ) ≥ WARN_THRESHOLD) :=
  ⟨by decide, (check_warning_total_and_guarded 8 10).2.2 (by decide)⟩

/-! ## Billing period calculator (`app/services/quotas.py` `get_billing_period`) -/

/-- Python `datetime.datetime` (naive UTC). -/
structure PyDateTime where
  year : Int
  month : Nat
  day : Nat
  hour : Nat
  minute : Nat
  second : Nat
  microsecond : Nat
deriving DecidableEq, Repr

/-- Python `calendar.isleap` / `datetime`'s leap-year rule. -/
def isLeap (y : Int) : Bool := y % 4 == 0 && (y % 100 != 0 || y % 400 == 0)

/-- Days in a month of the proleptic Gregorian calendar (0 for an invalid
month number, which no valid `PyDateTime` carries). -/
def daysInMonth (y : Int) (m : Nat) : Nat :=
  match m with
  | 1 => 31 | 3 => 31 | 5 => 31 | 7 => 31 | 8 => 31 | 10 => 31 | 12 => 31
  | 4 => 30 | 6 => 30 | 9 => 30 | 11 => 30
  | 2 => if isLeap y then 29 else 28
  | _ => 0

/-- A structurally valid `datetime` value. -/
def isValidDT (t : PyDateTime) : Prop :=
  1 ≤ t.month ∧ t.month ≤ 12 ∧ 1 ≤ t.day ∧ t.day ≤ daysInMonth t.year t.month ∧
  t.hour < 24 ∧ t.minute < 60 ∧ t.second < 60 ∧ t.microsecond < 1000000

instance (t : PyDateTime) : Decidable (isValidDT t) := by
  unfold isValidDT; infer_instance

/-- Python
`t.replace(day := d, hour := 0, minute := 0, second := 0, microsecond := 0)`:
`none` models the `ValueError` raised when day `d` does not exist in `t`'s
month. -/
def tryReplaceDayMidnight (t : PyDateTime) (d : Nat) : Option PyDateTime :=
  if 1 ≤ d ∧ d ≤ daysInMonth t.year t.month then
    some { t with day := d, hour := 0, minute := 0, second := 0, microsecond := 0 }
  else
    none

/-- `dateutil.relativedelta(months := n)` addition: shift the (year, month)
pair by `n` months and clamp the day to the target month's length; time fields
are preserved. -/
def addMonths (t : PyDateTime) (n : Int) : PyDateTime :=
  let total : Int := t.year * 12 + ((t.month : Int) - 1) + n
  let y : Int := total.ediv 12
  let m : Nat := (total.emod 12).toNat + 1
  { t with year := y, month := m, day := min t.day (daysInMonth y m) }

/-- Python `t - timedelta(days := 1)` (time of day preserved). -/
def subOneDay (t : PyDateTime) : PyDateTime :=
  if 2 ≤ t.day then { t with day := t.day - 1 }
  else if 2 ≤ t.month then
    { t with month := t.month - 1, day := daysInMonth t.year (t.month - 1) }
  else
    { t with year := t.year - 1, month := 12, day := 31 }

/-- Python `datetime` `<` comparison: lexicographic on all fields. -/
def dtLt (a b : PyDateTime) : Bool :=
  if a.year ≠ b.year then a.year < b.year
  else if a.month ≠ b.month then a.month < b.month
  else if a.day ≠ b.day then a.day < b.day
  else if a.hour ≠ b.hour then a.hour < b.hour
  else if a.minute ≠ b.minute then a.minute < b.minute
  else if a.second ≠ b.second then a.second < b.second
  else a.microsecond < b.microsecond

/-- `t.replace(hour := 0, minute := 0, second := 0, microsecond := 0)`. -/
def midnight (t : PyDateTime) : PyDateTime :=
  { t with hour := 0, minute := 0, second := 0, microsecond := 0 }

/-- `app/services/quotas.py` `get_billing_period`, with the organization's
`billing_cycle_anchor` and the (explicit) reference time as arguments:
try `reference_date.replace(day := anchor_day, ...midnight)`; on `ValueError`
fall back to the last day of the reference month
(`reference_date.replace(day := 1) + relativedelta(months := 1) - timedelta(days := 1)`,
then midnight); if the reference is before the computed start, subtract one
`relativedelta` month; the period ends one `relativedelta` month after the
start. -/
def get_billing_period (anchor_day : Nat) (reference_date : PyDateTime) :
    PyDateTime × PyDateTime :=
  let period_start :=
    match tryReplaceDayMidnight reference_date anchor_day with
    | some p => p
    | none =>
        let next_month := addMonths { reference_date with day := 1 } 1
        midnight (subOneDay next_month)
  let period_start :=
    if dtLt reference_date period_start then addMonths period_start (-1) else period_start
  let period_end := addMonths period_start 1
  (period_start, period_end)

/-- C3: with `anchor_day = 31` and reference time 2023-02-15 12:00, the code
clamps inside February (to Feb 28) and then subtracts a `relativedelta` month
from the clamped date, yielding `period_start = 2023-01-28` — although
January does contain the anchor day, so the most recent midnight occurrence
of day 31 at or before the reference (the claim, and the function's own
docstring "the billing period starts on the billing_cycle_anchor day of each
month") is 2023-01-31. -/
theorem billing_period_misses_anchor_after_clamp :
    get_billing_period 31 { year := 2023, month := 2, day := 15, hour := 12,
                            minute := 0, second := 0, microsecond := 0 } =
      ({ year := 2023, month := 1, day := 28, hour := 0, minute := 0,
         second := 0, microsecond := 0 },
       { year := 2023, month := 2, day := 28, hour := 0, minute := 0,
         second := 0, microsecond := 0 }) := by
  rfl

/-- C6 counterexample: with `anchor_day = 31`, the period computed at
reference 2023-02-28 00:00 is `[2023-02-28, 2023-03-28)`, yet recomputing at
exactly that `period_end` (2023-03-28 00:00) yields `period_start =
2023-02-28`, not the instant itself: a reservation timestamped exactly at
`period_end` is attributed to the period that ends there, refuting the claim
as stated for anchor days that clamp. -/
theorem billing_period_end_reattaches_to_old_period :
    (get_billing_period 31 { year := 2023, month := 2, day := 28, hour := 0,
                             minute := 0, second := 0, microsecond := 0 }).2 =
      { year := 2023, month := 3, day := 28, hour := 0, minute := 0,
        second := 0, microsecond := 0 } ∧
    (get_billing_period 31 { year := 2023, month := 3, day := 28, hour := 0,
                             minute := 0, second := 0, microsecond := 0 }).1 =
      { year := 2023, month := 2, day := 28, hour := 0, minute := 0,
        second := 0, microsecond := 0 } ∧
    ({ year := 2023, month := 2, day := 28, hour := 0, minute := 0,
       second := 0, microsecond := 0 } : PyDateTime) ≠
      { year := 2023, month := 3, day := 28, hour := 0, minute := 0,
        second := 0, microsecond := 0 } := by
  refine ⟨by rfl, by rfl, by decide⟩

theorem daysInMonth_ge_28 (y : Int) (m : Nat) (h1 : 1 ≤ m) (h2 : m ≤ 12) :
    28 ≤ daysInMonth y m := by
  interval_cases m <;> simp [daysInMonth]
  split <;> omega

theorem addMonths_month_def (t : PyDateTime) (n : Int) :
    (addMonths t n).month = ((t.year * 12 + ((t.month : Int) - 1) + n).emod 12).toNat + 1 :=
  rfl

theorem addMonths_day_def (t : PyDateTime) (n : Int) :
    (addMonths t n).day =
      min t.day (daysInMonth (addMonths t n).year (addMonths t n).month) :=
  rfl

theorem addMonths_month_bounds (t : PyDateTime) (n : Int) :
    1 ≤ (addMonths t n).month ∧ (addMonths t n).month ≤ 12 := by
  rw [addMonths_month_def]
  have h1 : 0 ≤ (t.year * 12 + ((t.month : Int) - 1) + n).emod 12 :=
    Int.emod_nonneg _ (by norm_num)
  have h2 : (t.year * 12 + ((t.month : Int) - 1) + n).emod 12 < 12 :=
    Int.emod_lt_of_pos _ (by norm_num)
  omega

theorem dtLt_irrefl (a : PyDateTime) : dtLt a a = false := by
  simp [dtLt]

/-- If `e` is already a midnight value on day `anchor` of a month long enough
to contain that day, then the billing period computed at `e` starts at `e`
itself. -/
theorem gbp_start_of_anchored (anchor : Nat) (e : PyDateTime)
    (h1 : 1 ≤ anchor) (hle : anchor ≤ daysInMonth e.year e.month)
    (hday : e.day = anchor) (hh : e.hour = 0) (hmi : e.minute = 0)
    (hse : e.second = 0) (hus : e.microsecond = 0) :
    (get_billing_period anchor e).1 = e := by
  have hrep : tryReplaceDayMidnight e anchor = some e := by
    unfold tryReplaceDayMidnight
    rw [if_pos ⟨h1, hle⟩]
    cases e
    simp_all
  unfold get_billing_period
  rw [hrep]
  simp [dtLt_irrefl]

/-- C6 (amended): for every anchor day between 1 and 28 — an anchor that
exists in every month, so no clamping ever occurs — and every reference time
with a well-formed month, recomputing the billing period at exactly the
returned `period_end` yields a new period whose `period_start` is that
instant.  (For anchor days 29–31 the counterexample shows a reference at the
`period_end` of a clamped period is re-attributed to the period ending
there.) -/
theorem billing_period_end_starts_next_period (anchor_day : Nat) (t : PyDateTime)
    (h1 : 1 ≤ anchor_day) (h2 : anchor_day ≤ 28)
    (hm1 : 1 ≤ t.month) (hm2 : t.month ≤ 12) :
    (get_billing_period anchor_day ((get_billing_period anchor_day t).2)).1 =
      (get_billing_period anchor_day t).2 := by
  set s0 : PyDateTime :=
    { t with day := anchor_day, hour := 0, minute := 0, second := 0, microsecond := 0 }
    with hs0def
  have hrep : tryReplaceDayMidnight t anchor_day = some s0 := by
    unfold tryReplaceDayMidnight
    rw [if_pos ⟨h1, h2.trans (daysInMonth_ge_28 t.year t.month hm1 hm2)⟩]
  have hstart : ∃ start : PyDateTime,
      (get_billing_period anchor_day t).2 = addMonths start 1 ∧
      start.day = anchor_day ∧ start.hour = 0 ∧ start.minute = 0 ∧
      start.second = 0 ∧ start.microsecond = 0 := by
    refine ⟨if dtLt t s0 then addMonths s0 (-1) else s0, ?_, ?_, ?_, ?_, ?_, ?_⟩
    · unfold get_billing_period
      rw [hrep]
    all_goals by_cases hb : dtLt t s0 <;> simp only [hb, if_true, if_false, Bool.false_eq_true]
    case pos =>
      rw [addMonths_day_def]
      have hmb := addMonths_month_bounds s0 (-1)
      have hdim := daysInMonth_ge_28 (addMonths s0 (-1)).year (addMonths s0 (-1)).month hmb.1 hmb.2
      have : s0.day = anchor_day := rfl
      rw [this]
      exact min_eq_left (h2.trans hdim)
    all_goals rfl
  obtain ⟨start, heq, hday, hh, hmi, hse, hus⟩ := hstart
  rw [heq]
  have hmb := addMonths_month_bounds start 1
  have hdim := daysInMonth_ge_28 (addMonths start 1).year (addMonths start 1).month hmb.1 hmb.2
  refine gbp_start_of_anchored anchor_day (addMonths start 1) h1 (h2.trans hdim) ?_ ?_ ?_ ?_ ?_
  · rw [addMonths_day_def, hday]
    exact min_eq_left (h2.trans hdim)
  · exact hh
  · exact hmi
  · exact hse
  · exact hus

/-- Witness for the amended C6 at anchor day 15 and reference
2025-11-20 10:30. -/
theorem billing_period_end_starts_next_period_witness :
    (1 ≤ 15 ∧ 15 ≤ 28 ∧ 1 ≤ 11 ∧ 11 ≤ 12) ∧
    (get_billing_period 15 ((get_billing_period 15
        { year := 2025, month := 11, day := 20, hour := 10, minute := 30,
          second := 0, microsecond := 0 }).2)).1 =
      (get_billing_period 15
        { year := 2025, month := 11, day := 20, hour := 10, minute := 30,
          second := 0, microsecond := 0 }).2 :=
  ⟨⟨by decide, by decide, by decide, by decide⟩,
   billing_period_end_starts_next_period 15
     { year := 2025, month := 11, day := 20, hour := 10, minute := 30,
       second := 0, microsecond := 0 }
     (by decide) (by decide) (by decide) (by decide)⟩

/-! ## Idempotency store (`app/services/idempotency.py`,
`app/models/idempotency.py`) -/

/-- One row of the `idempotency_keys` table.  Parsed JSON response bodies are
represented by their (injective) serialization, so `json.dumps`/`json.loads`
round-trips are identities of this field. -/
structure IdempotencyKey where
  idempotency_key : String
  org_id : Int
  resource_type : String
  resource_id : Option Int
  response_body : Option String
  status_code : Int
  created_at : PyDateTime
  expires_at : PyDateTime
deriving DecidableEq, Repr

/-- `timedelta(hours := 24)` added to a timestamp (the `expires_at` column
default). -/
def addOneDay (t : PyDateTime) : PyDateTime :=
  if t.day + 1 ≤ daysInMonth t.year t.month then { t with day := t.day + 1 }
  else if t.month + 1 ≤ 12 then { t with month := t.month + 1, day := 1 }
  else { t with year := t.year + 1, month := 1, day := 1 }

/-- A database-level error surfaced by `db.commit()`. -/
inductive DBError where
  | uniqueViolation
deriving DecidableEq, Repr

/-- `INSERT` into `idempotency_keys`: the schema declares the
`idempotency_key` column alone as `unique=True`, so inserting a row whose key
string equals ANY existing row's key — regardless of `org_id` or
`resource_type` — raises `IntegrityError` at commit and persists nothing. -/
def insertIdemRow (db : List IdempotencyKey) (r : IdempotencyKey) :
    Except DBError (List IdempotencyKey) :=
  if db.any (fun x => x.idempotency_key == r.idempotency_key) then
    Except.error DBError.uniqueViolation
  else
    Except.ok (db ++ [r])

/-- The filter used by both service functions for the scope triple
(key, org, resource type), in the source's condition order. -/
def tripleMatch (k : String) (org_id : Int) (resource_type : String)
    (x : IdempotencyKey) : Bool :=
  x.idempotency_key == k && x.org_id == org_id && x.resource_type == resource_type

/-- Python `json.loads(existing.response_body) if existing.response_body
else {}`: `None` and the empty string are falsy and give `{}`. -/
def loadBody : Option String → String
  | none => "\x7b\x7d"
  | some s => if s = "" then "\x7b\x7d" else s

/-- `app/services/idempotency.py` `check_idempotency_key`: a missing header —
or a present-but-EMPTY one, since `if not idempotency_key: return None` treats
the falsy empty string like an absent key — yields `None`; then length outside
16–255 → HTTP 400; otherwise the first unexpired row matching
(key, org, resource type) yields the cached `(status_code, body)`. -/
def check_idempotency_key (header : Option String) (db : List IdempotencyKey)
    (org_id : Int) (resource_type : String) (now : PyDateTime) :
    Except HTTPError (Option (Int × String)) :=
  match header with
  | none => Except.ok none
  | some idempotency_key =>
      if idempotency_key = "" then Except.ok none
      else if idempotency_key.length < 16 ∨ idempotency_key.length > 255 then
        Except.error { status := 400,
                       code := "Invalid Idempotency-Key format (must be 16-255 chars)" }
      else
        match db.find? (fun r => tripleMatch idempotency_key org_id resource_type r &&
            dtLt now r.expires_at) with
        | some existing =>
            Except.ok (some (existing.status_code, loadBody existing.response_body))
        | none => Except.ok none

/-- `app/services/idempotency.py` `store_idempotency_key`: falsy key → no-op;
an existing row for the scope triple → no-op ("concurrent request beat us");
otherwise insert (which the schema's global unique key column may reject). -/
def store_idempotency_key (idempotency_key : String) (db : List IdempotencyKey)
    (org_id : Int) (resource_type : String) (resource_id : Int)
    (response_body : String) (status_code : Int) (now : PyDateTime) :
    Except DBError (List IdempotencyKey) :=
  if idempotency_key = "" then Except.ok db
  else
    match db.find? (tripleMatch idempotency_key org_id resource_type) with
    | some _ => Except.ok db
    | none =>
        insertIdemRow db
          { idempotency_key := idempotency_key, org_id := org_id,
            resource_type := resource_type, resource_id := some resource_id,
            response_body := some response_body, status_code := status_code,
            created_at := now, expires_at := addOneDay now }

/-- C2 counterexample: the same 18-character key stored for (org 1, "scan")
and then for (org 2, "scan") does NOT produce two distinct records — the
second `store_idempotent` hits the schema's global unique constraint on the
key column and fails with `IntegrityError`, persisting nothing. -/
theorem same_key_other_org_store_rejected :
    store_idempotency_key "k-0123456789abcdef" [] 1 "scan" 10 "body-a" 201
        { year := 2025, month := 6, day := 1, hour := 0, minute := 0,
          second := 0, microsecond := 0 } =
      Except.ok
        [{ idempotency_key := "k-0123456789abcdef", org_id := 1,
           resource_type := "scan", resource_id := some 10,
           response_body := some "body-a", status_code := 201,
           created_at := { year := 2025, month := 6, day := 1, hour := 0,
                           minute := 0, second := 0, microsecond := 0 },
           expires_at := { year := 2025, month := 6, day := 2, hour := 0,
                           minute := 0, second := 0, microsecond := 0 } }] ∧
    store_idempotency_key "k-0123456789abcdef"
        [{ idempotency_key := "k-0123456789abcdef", org_id := 1,
           resource_type := "scan", resource_id := some 10,
           response_body := some "body-a", status_code := 201,
           created_at := { year := 2025, month := 6, day := 1, hour := 0,
                           minute := 0, second := 0, microsecond := 0 },
           expires_at := { year := 2025, month := 6, day := 2, hour := 0,
                           minute := 0, second := 0, microsecond := 0 } }]
        2 "scan" 11 "body-b" 201
        { year := 2025, month := 6, day := 1, hour := 0, minute := 0,
          second := 0, microsecond := 0 } =
      Except.error DBError.uniqueViolation := by
  exact ⟨rfl, rfl⟩

/-- Unfolding equation of `check_idempotency_key` for a present header. -/
theorem check_idempotency_key_some_eq (k : String) (db : List IdempotencyKey)
    (org_id : Int) (resource_type : String) (now : PyDateTime) :
    check_idempotency_key (some k) db org_id resource_type now =
      if k = "" then Except.ok none
      else if k.length < 16 ∨ k.length > 255 then
        Except.error { status := 400,
                       code := "Invalid Idempotency-Key format (must be 16-255 chars)" }
      else
        match db.find? (fun r => tripleMatch k org_id resource_type r &&
            dtLt now r.expires_at) with
        | some existing =>
            Except.ok (some (existing.status_code, loadBody existing.response_body))
        | none => Except.ok none :=
  rfl

/-- If the first row matching the scope triple is `r` and `r` is unexpired,
then the lookup filter (triple plus expiry) also finds exactly `r`: every row
before `r` fails the triple part of the conjunction. -/
theorem find_full_of_find_triple (db : List IdempotencyKey) (k : String)
    (org_id : Int) (resource_type : String) (now : PyDateTime) (r : IdempotencyKey)
    (hfind : db.find? (tripleMatch k org_id resource_type) = some r)
    (hexp : dtLt now r.expires_at = true) :
    db.find? (fun x => tripleMatch k org_id resource_type x && dtLt now x.expires_at) =
      some r := by
  induction db with
  | nil => cases hfind
  | cons x xs ih =>
      by_cases hx : tripleMatch k org_id resource_type x = true
      · rw [List.find?_cons_of_pos _ hx] at hfind
        injection hfind with h
        subst h
        exact List.find?_cons_of_pos _ (by simp [hx, hexp])
      · rw [List.find?_cons_of_neg _ hx] at hfind
        rw [List.find?_cons_of_neg _ (by simp [hx])]
        exact ih hfind

/-- C2 (amended): lookup is genuinely scoped by the triple — a cached hit
always comes from a row of the requesting (key, org, resource type) scope —
but the key column's global `unique=True` constraint means a second store of
the same key string under a DIFFERENT org or resource type is rejected with
`IntegrityError` instead of being persisted as a distinct record. -/
theorem idem_lookup_triple_scoped_but_store_globally_unique
    (db : List IdempotencyKey) (k : String) (org_id : Int) (resource_type : String)
    (now : PyDateTime) :
    (∀ c b, check_idempotency_key (some k) db org_id resource_type now =
        Except.ok (some (c, b)) →
      ∃ r ∈ db, r.idempotency_key = k ∧ r.org_id = org_id ∧
        r.resource_type = resource_type ∧ dtLt now r.expires_at = true ∧
        r.status_code = c ∧ loadBody r.response_body = b) ∧
    (∀ r ∈ db, ∀ rid body code, r.idempotency_key = k → k ≠ "" →
      (∀ x ∈ db, ¬(x.idempotency_key = k ∧ x.org_id = org_id ∧
        x.resource_type = resource_type)) →
      store_idempotency_key k db org_id resource_type rid body code now =
        Except.error DBError.uniqueViolation) := by
  constructor
  · intro c b h
    rw [check_idempotency_key_some_eq] at h
    by_cases hemp : k = ""
    · rw [if_pos hemp] at h
      cases h
    rw [if_neg hemp] at h
    by_cases hlen : k.length < 16 ∨ k.length > 255
    · rw [if_pos hlen] at h
      cases h
    · rw [if_neg hlen] at h
      rcases hfind : db.find?
          (fun r => tripleMatch k org_id resource_type r && dtLt now r.expires_at)
          with _ | r
      · rw [hfind] at h
        cases h
      · rw [hfind] at h
        injection h with h
        injection h with h
        have hmem := List.mem_of_find?_eq_some hfind
        have hp := List.find?_some hfind
        simp only [Bool.and_eq_true, tripleMatch, beq_iff_eq] at hp
        refine ⟨r, hmem, hp.1.1.1, hp.1.1.2, hp.1.2, hp.2, ?_, ?_⟩
        · exact congrArg Prod.fst h
        · exact congrArg Prod.snd h
  · intro r hr rid body code hkey hkne hno
    unfold store_idempotency_key
    rw [if_neg hkne]
    have hfind : db.find? (tripleMatch k org_id resource_type) = none := by
      apply List.find?_eq_none.mpr
      intro x hx
      have := hno x hx
      simp only [tripleMatch, Bool.and_eq_true, beq_iff_eq]
      tauto
    rw [hfind]
    unfold insertIdemRow
    rw [if_pos]
    simp only [List.any_eq_true]
    exact ⟨r, hr, by simp [hkey]⟩

/-- Witness for C2's amended statement: with the single stored row for
(k, org 1, "scan"), a hit is scope-attributed, and the same key stored for
org 2 is rejected by the unique key column. -/
theorem idem_lookup_triple_scoped_but_store_globally_unique_witness :
    store_idempotency_key "k-0123456789abcdef"
        [{ idempotency_key := "k-0123456789abcdef", org_id := 1,
           resource_type := "scan", resource_id := some 10,
           response_body := some "body-a", status_code := 201,
           created_at := { year := 2025, month := 6, day := 1, hour := 0,
                           minute := 0, second := 0, microsecond := 0 },
           expires_at := { year := 2025, month := 6, day := 2, hour := 0,
                           minute := 0, second := 0, microsecond := 0 } }]
        2 "scan" 11 "body-b" 201
        { year := 2025, month := 6, day := 1, hour := 0, minute := 0,
          second := 0, microsecond := 0 } =
      Except.error DBError.uniqueViolation := by
  refine (idem_lookup_triple_scoped_but_store_globally_unique
      [{ idempotency_key := "k-0123456789abcdef", org_id := 1,
         resource_type := "scan", resource_id := some 10,
         response_body := some "body-a", status_code := 201,
         created_at := { year := 2025, month := 6, day := 1, hour := 0,
                         minute := 0, second := 0, microsecond := 0 },
         expires_at := { year := 2025, month := 6, day := 2, hour := 0,
                         minute := 0, second := 0, microsecond := 0 } }]
      "k-0123456789abcdef" 2 "scan"
      { year := 2025, month := 6, day := 1, hour := 0, minute := 0,
        second := 0, microsecond := 0 }).2
    { idempotency_key := "k-0123456789abcdef", org_id := 1,
      resource_type := "scan", resource_id := some 10,
      response_body := some "body-a", status_code := 201,
      created_at := { year := 2025, month := 6, day := 1, hour := 0,
                      minute := 0, second := 0, microsecond := 0 },
      expires_at := { year := 2025, month := 6, day := 2, hour := 0,
                      minute := 0, second := 0, microsecond := 0 } }
    (by simp) 11 "body-b" 201 rfl (by decide) ?_
  intro x hx
  simp only [List.mem_singleton] at hx
  subst hx
  simp

/-- C5: `store_idempotent` is write-once per scope — when a row for the
triple already exists, any later call (any payload) returns the table
unchanged, and lookup of that scope (unexpired, with a well-formed key
length) keeps returning that first-stored row's response. -/
theorem store_idempotent_write_once (db : List IdempotencyKey) (k : String)
    (org_id : Int) (resource_type : String) (now : PyDateTime) (r : IdempotencyKey)
    (hfind : db.find? (tripleMatch k org_id resource_type) = some r)
    (hlen1 : 16 ≤ k.length) (hlen2 : k.length ≤ 255) :
    (∀ rid body code,
      store_idempotency_key k db org_id resource_type rid body code now =
        Except.ok db) ∧
    (dtLt now r.expires_at = true →
      check_idempotency_key (some k) db org_id resource_type now =
        Except.ok (some (r.status_code, loadBody r.response_body))) := by
  constructor
  · intro rid body code
    unfold store_idempotency_key
    have hkne : ¬(k = "") := by
      intro h
      subst h
      simp at hlen1
    rw [if_neg hkne, hfind]
  · intro hexp
    rw [check_idempotency_key_some_eq]
    rw [if_neg (fun hemp => by subst hemp; simp at hlen1)]
    rw [if_neg (by omega)]
    rw [find_full_of_find_triple db k org_id resource_type now r hfind hexp]

/-- Witness for C5 with one stored row and a later store of a different
payload. -/
theorem store_idempotent_write_once_witness :
    store_idempotency_key "k-0123456789abcdef"
        [{ idempotency_key := "k-0123456789abcdef", org_id := 1,
           resource_type := "scan", resource_id := some 10,
           response_body := some "body-a", status_code := 201,
           created_at := { year := 2025, month := 6, day := 1, hour := 0,
                           minute := 0, second := 0, microsecond := 0 },
           expires_at := { year := 2025, month := 6, day := 2, hour := 0,
                           minute := 0, second := 0, microsecond := 0 } }]
        1 "scan" 99 "body-DIFFERENT" 500
        { year := 2025, month := 6, day := 1, hour := 6, minute := 0,
          second := 0, microsecond := 0 } =
      Except.ok
        [{ idempotency_key := "k-0123456789abcdef", org_id := 1,
           resource_type := "scan", resource_id := some 10,
           response_body := some "body-a", status_code := 201,
           created_at := { year := 2025, month := 6, day := 1, hour := 0,
                           minute := 0, second := 0, microsecond := 0 },
           expires_at := { year := 2025, month := 6, day := 2, hour := 0,
                           minute := 0, second := 0, microsecond := 0 } }] ∧
    check_idempotency_key (some "k-0123456789abcdef")
        [{ idempotency_key := "k-0123456789abcdef", org_id := 1,
           resource_type := "scan", resource_id := some 10,
           response_body := some "body-a", status_code := 201,
           created_at := { year := 2025, month := 6, day := 1, hour := 0,
                           minute := 0, second := 0, microsecond := 0 },
           expires_at := { year := 2025, month := 6, day := 2, hour := 0,
                           minute := 0, second := 0, microsecond := 0 } }]
        1 "scan"
        { year := 2025, month := 6, day := 1, hour := 6, minute := 0,
          second := 0, microsecond := 0 } =
      Except.ok (some (201, "body-a")) := by
  have h := store_idempotent_write_once
    [{ idempotency_key := "k-0123456789abcdef", org_id := 1,
       resource_type := "scan", resource_id := some 10,
       response_body := some "body-a", status_code := 201,
       created_at := { year := 2025, month := 6, day := 1, hour := 0,
                       minute := 0, second := 0, microsecond := 0 },
       expires_at := { year := 2025, month := 6, day := 2, hour := 0,
                       minute := 0, second := 0, microsecond := 0 } }]
    "k-0123456789abcdef" 1 "scan"
    { year := 2025, month := 6, day := 1, hour := 6, minute := 0,
      second := 0, microsecond := 0 }
    { idempotency_key := "k-0123456789abcdef", org_id := 1,
      resource_type := "scan", resource_id := some 10,
      response_body := some "body-a", status_code := 201,
      created_at := { year := 2025, month := 6, day := 1, hour := 0,
                      minute := 0, second := 0, microsecond := 0 },
      expires_at := { year := 2025, month := 6, day := 2, hour := 0,
                      minute := 0, second := 0, microsecond := 0 } }
    (by rfl) (by decide) (by decide)
  exact ⟨h.1 99 "body-DIFFERENT" 500, h.2 (by rfl)⟩

/-! ## Scan creation route (`app/api/v1/endpoints/scans.py` `create_scan_run`) -/

/-- The state touched by the scan-creation route: the idempotency table, the
org's (locked) ledger row, and the ids of created `ScanRun` rows. -/
structure ScanAPIState where
  idem : List IdempotencyKey
  usage : OrgMonthlyUsage
  scan_runs : List Nat
deriving DecidableEq, Repr

/-- Non-error responses of the route: an idempotent replay or a fresh run. -/
inductive ScanResponse where
  | cached (status : Int) (body : String)
  | created (scan_run_id : Nat)
deriving DecidableEq, Repr

/-- `create_scan_run` (brand/membership checks already passed, org resolved):
1. `check_idempotency_key` — may raise 400 before anything else runs;
   a cached hit returns it verbatim;
2. sum per-model credits (2 for perplexity online models, else 1) and, when
   the model list is nonempty, `assert_within_limit(scans_used + total, …)`
   then commit the increment;
3. create the `ScanRun` row;
4. the job-enqueue `try` block references `idempotency_key` before its
   assignment, so it raises `NameError`, which the bare `except Exception`
   swallows — no modelled state is touched;
5. `store_idempotency_key` when the header is present (an `IntegrityError`
   from the unique key column surfaces as a 500 after the usage increment). -/
def create_scan_run (header : Option String) (models : List String)
    (plan_scans : Option Int) (org_id : Int) (st : ScanAPIState) (now : PyDateTime) :
    Except HTTPError ScanResponse × ScanAPIState :=
  match check_idempotency_key header st.idem org_id "scan" now with
  | Except.error e => (Except.error e, st)
  | Except.ok (some (c, b)) => (Except.ok (ScanResponse.cached c b), st)
  | Except.ok none =>
      let total_credits_needed : Int := models.foldl
        (fun acc m => acc +
          (if pyContains (pyLower m) "perplexity" && pyContains (pyLower m) "online"
           then 2 else 1)) 0
      let reserve : Except HTTPError OrgMonthlyUsage :=
        if models.isEmpty then Except.ok st.usage
        else
          match assert_within_limit (st.usage.scans_used + total_credits_needed)
              plan_scans "Scan" with
          | Except.error e => Except.error e
          | Except.ok _ =>
              Except.ok { st.usage with
                scans_used := st.usage.scans_used + total_credits_needed }
      match reserve with
      | Except.error e => (Except.error e, st)
      | Except.ok usage' =>
          let scan_run_id := st.scan_runs.length + 1
          let st1 : ScanAPIState :=
            { st with usage := usage', scan_runs := st.scan_runs ++ [scan_run_id] }
          match header with
          | none => (Except.ok (ScanResponse.created scan_run_id), st1)
          | some k =>
              match store_idempotency_key k st1.idem org_id "scan" scan_run_id
                  ("scan_run:" ++ toString scan_run_id) 201 now with
              | Except.error _ =>
                  (Except.error { status := 500, code := "IntegrityError" }, st1)
              | Except.ok idem' =>
                  (Except.ok (ScanResponse.created scan_run_id), { st1 with idem := idem' })

/-- `assert_within_limit` only ever raises with status 429. -/
theorem assert_within_limit_error_status (current : Int) (limit : Option Int)
    (resource : String) (e : HTTPError)
    (h : assert_within_limit current limit resource = Except.error e) :
    e.status = 429 := by
  unfold assert_within_limit at h
  split at h
  · cases h
  · split at h
    · injection h with h
      subst h
      rfl
    · cases h

/-- C8 counterexample: a request carrying a present-but-EMPTY idempotency key
(length 0, i.e. shorter than 16) is NOT rejected — `if not idempotency_key`
treats the falsy empty string as an absent key — and the request proceeds
with its side effects: the quota is reserved (`scans_used` 0 → 1) and the
scan run is created. -/
theorem empty_key_not_rejected_runs_side_effects :
    ("" : String).length < 16 ∧
    create_scan_run (some "") ["gpt-4"] (some 1000) 1
        { idem := [], usage := { scans_used := 0, prompts_used := 0,
                                 ai_pages_generated := 0 }, scan_runs := [] }
        { year := 2025, month := 6, day := 1, hour := 0, minute := 0,
          second := 0, microsecond := 0 } =
      (Except.ok (ScanResponse.created 1),
       { idem := [], usage := { scans_used := 1, prompts_used := 0,
                                ai_pages_generated := 0 }, scan_runs := [1] }) :=
  ⟨by decide, by rfl⟩

/-- C8 (amended): a request carrying a NON-empty idempotency key is rejected
with HTTP 400 — with the whole state untouched, before any reservation or
record write — exactly when the key's length falls outside 16–255; an
in-bounds key never produces the 400 invalid-key error; and a present-but-
empty key is falsy and handled exactly like an absent header (no rejection,
the request proceeds). -/
theorem idem_key_length_gate (k : String) (models : List String)
    (plan_scans : Option Int) (org_id : Int) (st : ScanAPIState) (now : PyDateTime) :
    (k ≠ "" → (k.length < 16 ∨ 255 < k.length) →
      create_scan_run (some k) models plan_scans org_id st now =
        (Except.error { status := 400, code :=
            "Invalid Idempotency-Key format (must be 16-255 chars)" }, st)) ∧
    (16 ≤ k.length → k.length ≤ 255 →
      (create_scan_run (some k) models plan_scans org_id st now).1 ≠
        Except.error { status := 400, code :=
            "Invalid Idempotency-Key format (must be 16-255 chars)" }) ∧
    create_scan_run (some "") models plan_scans org_id st now =
      create_scan_run none models plan_scans org_id st now := by
  refine ⟨fun hne hlen => ?_, fun h1 h2 => ?_, ?_⟩
  · unfold create_scan_run
    rw [check_idempotency_key_some_eq, if_neg hne, if_pos hlen]
  · unfold create_scan_run
    rw [check_idempotency_key_some_eq,
      if_neg (fun hemp => by subst hemp; exact absurd h1 (by decide)),
      if_neg (by omega)]
    rcases hfind : st.idem.find?
        (fun r => tripleMatch k org_id "scan" r && dtLt now r.expires_at) with _ | r
    · dsimp only
      split
      · rename_i e heq
        intro hc
        injection hc with hc
        have hstat : e.status = 429 := by
          by_cases hm : models.isEmpty
          · rw [if_pos hm] at heq
            cases heq
          · rw [if_neg hm] at heq
            rcases ha : assert_within_limit
                (st.usage.scans_used + models.foldl
                  (fun acc m => acc +
                    (if pyContains (pyLower m) "perplexity" &&
                        pyContains (pyLower m) "online" then 2 else 1)) 0)
                plan_scans "Scan" with e' | u
            · rw [ha] at heq
              injection heq with heq
              subst heq
              exact assert_within_limit_error_status _ _ _ _ ha
            · rw [ha] at heq
              cases heq
        rw [hc] at hstat
        exact absurd hstat (by decide)
      · rename_i usage' heq
        split
        · intro hc
          injection hc with hc
          exact absurd (congrArg HTTPError.status hc) (by decide)
        · intro hc
          cases hc
    · intro hc
      cases hc
  · rfl

/-- Witness for C8: a (non-empty) 3-character key is rejected before any
state change; an 18-character key is not key-rejected. -/
theorem idem_key_length_gate_witness :
    ("abc" ≠ "" ∧ ("abc".length < 16 ∨ 255 < "abc".length)) ∧
    create_scan_run (some "abc") ["gpt-4"] (some 1000) 1
        { idem := [], usage := { scans_used := 0, prompts_used := 0,
                                 ai_pages_generated := 0 }, scan_runs := [] }
        { year := 2025, month := 6, day := 1, hour := 0, minute := 0,
          second := 0, microsecond := 0 } =
      (Except.error { status := 400, code :=
          "Invalid Idempotency-Key format (must be 16-255 chars)" },
       { idem := [], usage := { scans_used := 0, prompts_used := 0,
                                ai_pages_generated := 0 }, scan_runs := [] }) ∧
    (create_scan_run (some "k-0123456789abcdef") ["gpt-4"] (some 1000) 1
        { idem := [], usage := { scans_used := 0, prompts_used := 0,
                                 ai_pages_generated := 0 }, scan_runs := [] }
        { year := 2025, month := 6, day := 1, hour := 0, minute := 0,
          second := 0, microsecond := 0 }).1 ≠
      Except.error { status := 400, code :=
          "Invalid Idempotency-Key format (must be 16-255 chars)" } :=
  ⟨⟨by decide, Or.inl (by decide)⟩,
   (idem_key_length_gate "abc" ["gpt-4"] (some 1000) 1
      { idem := [], usage := { scans_used := 0, prompts_used := 0,
                               ai_pages_generated := 0 }, scan_runs := [] }
      { year := 2025, month := 6, day := 1, hour := 0, minute := 0,
        second := 0, microsecond := 0 }).1 (by decide) (Or.inl (by decide)),
   (idem_key_length_gate "k-0123456789abcdef" ["gpt-4"] (some 1000) 1
      { idem := [], usage := { scans_used := 0, prompts_used := 0,
                               ai_pages_generated := 0 }, scan_runs := [] }
      { year := 2025, month := 6, day := 1, hour := 0, minute := 0,
        second := 0, microsecond := 0 }).2.1 (by decide) (by decide)⟩

/-! ## SHA-256 (`hashlib.sha256`), over byte lists with 32-bit words as
`Nat` mod `2^32` -/

/-- `2^32`. -/
def w32 : Nat := 4294967296

/-- 32-bit right rotation. -/
def rotr32 (x n : Nat) : Nat := ((x >>> n) ||| (x <<< (32 - n))) % w32

/-- Bitwise complement within 32 bits. -/
def not32 (x : Nat) : Nat := x ^^^ (w32 - 1)

def sigma0 (x : Nat) : Nat := (rotr32 x 7 ^^^ rotr32 x 18) ^^^ (x >>> 3)

def sigma1 (x : Nat) : Nat := (rotr32 x 17 ^^^ rotr32 x 19) ^^^ (x >>> 10)

def bigSigma0 (x : Nat) : Nat := (rotr32 x 2 ^^^ rotr32 x 13) ^^^ rotr32 x 22

def bigSigma1 (x : Nat) : Nat := (rotr32 x 6 ^^^ rotr32 x 11) ^^^ rotr32 x 25

def chFn (x y z : Nat) : Nat := (x &&& y) ^^^ (not32 x &&& z)

def majFn (x y z : Nat) : Nat := ((x &&& y) ^^^ (x &&& z)) ^^^ (y &&& z)

/-- The SHA-256 round constants. -/
def K256 : List Nat :=
  [1116352408, 1899447441, 3049323471, 3921009573, 961987163,
   1508970993, 2453635748, 2870763221, 3624381080, 310598401,
   607225278, 1426881987, 1925078388, 2162078206, 2614888103,
   3248222580, 3835390401, 4022224774, 264347078, 604807628,
   770255983, 1249150122, 1555081692, 1996064986, 2554220882,
   2821834349, 2952996808, 3210313671, 3336571891, 3584528711,
   113926993, 338241895, 666307205, 773529912, 1294757372,
   1396182291, 1695183700, 1986661051, 2177026350, 2456956037,
   2730485921, 2820302411, 3259730800, 3345764771, 3516065817,
   3600352804, 4094571909, 275423344, 430227734, 506948616,
   659060556, 883997877, 958139571, 1322822218, 1537002063,
   1747873779, 1955562222, 2024104815, 2227730452, 2361852424,
   2428436474, 2756734187, 3204031479, 3329325298]

/-- The SHA-256 initial hash values. -/
def H256 : List Nat :=
  [1779033703, 3144134277, 1013904242, 2773480762, 1359893119,
   2600822924, 528734635, 1541459225]

/-- `n` bytes of `val`, big-endian. -/
def toBytesBE : Nat → Nat → List Nat
  | 0, _ => []
  | n + 1, val => toBytesBE n (val >>> 8) ++ [val % 256]

/-- SHA-256 message padding: append `0x80`, zeros to 56 mod 64, and the
64-bit big-endian bit length. -/
def sha256pad (msg : List Nat) : List Nat :=
  let len := msg.length
  let zeros := (120 - ((len + 1) % 64)) % 64
  msg ++ [0x80] ++ List.replicate zeros 0 ++ toBytesBE 8 (len * 8)

/-- Split into 64-byte chunks. -/
def chunks64 (xs : List Nat) : List (List Nat) :=
  if _h : xs = [] then []
  else xs.take 64 :: chunks64 (xs.drop 64)
termination_by xs.length
decreasing_by
  simp only [List.length_drop]
  have := List.length_pos.mpr _h
  omega

/-- Big-endian 32-bit words of a byte list. -/
def words16 : List Nat → List Nat
  | b0 :: b1 :: b2 :: b3 :: rest =>
      (((b0 * 256 + b1) * 256 + b2) * 256 + b3) :: words16 rest
  | _ => []

/-- Extend the 16-word schedule by `n` further words. -/
def extendSchedule (w : List Nat) : Nat → List Nat
  | 0 => w
  | n + 1 =>
      let w' := extendSchedule w n
      let i := w'.length
      w' ++ [(w'.getD (i - 16) 0 + sigma0 (w'.getD (i - 15) 0) + w'.getD (i - 7) 0 +
              sigma1 (w'.getD (i - 2) 0)) % w32]

/-- The eight working variables of the compression function. -/
structure SHA256State where
  a : Nat
  b : Nat
  c : Nat
  d : Nat
  e : Nat
  f : Nat
  g : Nat
  h : Nat
deriving DecidableEq, Repr

/-- One compression round for a (constant, schedule word) pair. -/
def sha256round (st : SHA256State) (kw : Nat × Nat) : SHA256State :=
  let t1 := (st.h + bigSigma1 st.e + chFn st.e st.f st.g + kw.1 + kw.2) % w32
  let t2 := (bigSigma0 st.a + majFn st.a st.b st.c) % w32
  { a := (t1 + t2) % w32, b := st.a, c := st.b, d := st.c,
    e := (st.d + t1) % w32, f := st.e, g := st.f, h := st.g }

/-- Process one 64-byte chunk. -/
def processChunk (hs : List Nat) (chunk : List Nat) : List Nat :=
  let w := extendSchedule (words16 chunk) 48
  let st0 : SHA256State :=
    { a := hs.getD 0 0, b := hs.getD 1 0, c := hs.getD 2 0, d := hs.getD 3 0,
      e := hs.getD 4 0, f := hs.getD 5 0, g := hs.getD 6 0, h := hs.getD 7 0 }
  let st := (K256.zip w).foldl sha256round st0
  [(hs.getD 0 0 + st.a) % w32, (hs.getD 1 0 + st.b) % w32,
   (hs.getD 2 0 + st.c) % w32, (hs.getD 3 0 + st.d) % w32,
   (hs.getD 4 0 + st.e) % w32, (hs.getD 5 0 + st.f) % w32,
   (hs.getD 6 0 + st.g) % w32, (hs.getD 7 0 + st.h) % w32]

/-- SHA-256 digest (32 bytes) of a byte list. -/
def sha256 (msg : List Nat) : List Nat :=
  let hs := (chunks64 (sha256pad msg)).foldl processChunk H256
  hs.foldr (fun word acc => toBytesBE 4 word ++ acc) []

def hexDigit (n : Nat) : Char :=
  match n with
  | 0 => '0' | 1 => '1' | 2 => '2' | 3 => '3' | 4 => '4'
  | 5 => '5' | 6 => '6' | 7 => '7' | 8 => '8' | 9 => '9'
  | 10 => 'a' | 11 => 'b' | 12 => 'c' | 13 => 'd' | 14 => 'e'
  | _ => 'f'

/-- Lowercase hex encoding (`hexdigest`). -/
def bytesToHex (bs : List Nat) : List Char :=
  bs.foldr (fun byte acc => hexDigit (byte / 16) :: hexDigit (byte % 16) :: acc) []

/-- UTF-8 bytes of a string (`str.encode()`). -/
def strBytes (s : String) : List Nat := s.toUTF8.toList.map (fun b => b.toNat)

/-- `hashlib.sha256(key.encode()).hexdigest()`. -/
def sha256hexdigest (s : String) : List Char := bytesToHex (sha256 (strBytes s))

/-! ## Job queue (`app/services/job_queue.py` `JobQueueService`) -/

/-- One Redis string entry with its TTL in seconds. -/
structure RedisEntry where
  key : String
  value : String
  ttl : Nat
deriving DecidableEq, Repr

/-- `redis.exists(key) > 0`. -/
def redisExists (redis : List RedisEntry) (k : String) : Bool :=
  redis.any (fun entry => entry.key == k)

/-- `redis.setex(key, ttl, value)`. -/
def redisSetex (redis : List RedisEntry) (k v : String) (ttl : Nat) : List RedisEntry :=
  { key := k, value := v, ttl := ttl } :: redis.filter (fun entry => !(entry.key == k))

/-- The `meta` dict attached to a queued job. -/
structure JobMeta where
  idempotency_key : String
  request_id : Option String
  user_id : Option Int
  org_id : Option Int
  retry_count : Nat
deriving DecidableEq, Repr

/-- An RQ job as created by `queue.enqueue`. -/
structure RQJob where
  id : String
  queue : String
  func : String
  arg : Nat
  meta : JobMeta
  timeout : String
deriving DecidableEq, Repr

/-- `JobQueueService._generate_job_id`:
`hashlib.sha256(idempotency_key.encode()).hexdigest()[:16]`. -/
def generate_job_id (idempotency_key : String) : String :=
  String.mk ((sha256hexdigest idempotency_key).take 16)

/-- `JobQueueService._check_idempotency`: existence of
`"idempotency:" + key`. -/
def check_idempotency (redis : List RedisEntry) (idempotency_key : String) : Bool :=
  redisExists redis ("idempotency:" ++ idempotency_key)

/-- `JobQueueService._store_idempotency` (the call site uses the default
`ttl = 86400`, 24 hours). -/
def store_idempotency (redis : List RedisEntry) (idempotency_key job_id : String)
    (ttl : Nat) : List RedisEntry :=
  redisSetex redis ("idempotency:" ++ idempotency_key) job_id ttl

/-- Default key for `enqueue_scan` when none is supplied:
`f"scan:{scan_run_id}"`. -/
def defaultScanKey (scan_run_id : Nat) (idempotency_key : Option String) : String :=
  match idempotency_key with
  | none => "scan:" ++ toString scan_run_id
  | some k => k

/-- `JobQueueService.enqueue_scan`: duplicate marker → `None` and no state
change; otherwise enqueue on `"scans"` with the deterministic job id, caller
trace metadata, `retry_count = 0`, a 30-minute timeout, and persist the
marker with the 24-hour TTL. -/
def enqueue_scan (redis : List RedisEntry) (scan_run_id : Nat)
    (idempotency_key : Option String) (request_id : Option String)
    (user_id org_id : Option Int) : Option RQJob × List RedisEntry :=
  let key := defaultScanKey scan_run_id idempotency_key
  if check_idempotency redis key then (none, redis)
  else
    let job : RQJob :=
      { id := generate_job_id key, queue := "scans",
        func := "app.jobs.scan_executor.execute_scan_run", arg := scan_run_id,
        meta := { idempotency_key := key, request_id := request_id,
                  user_id := user_id, org_id := org_id, retry_count := 0 },
        timeout := "30m" }
    (some job, store_idempotency redis key job.id 86400)

/-- C9: the job id is the (deterministic) truncated SHA-256 of the key, so
equal keys give equal ids; when the existence marker is present the enqueue
returns no job and leaves Redis unchanged; on success the job carries the
deterministic id and the marker is persisted with TTL 86400 s (24 h). -/
theorem enqueue_scan_deterministic_and_deduplicated (redis : List RedisEntry)
    (scan_run_id : Nat) (idempotency_key : Option String)
    (request_id : Option String) (user_id org_id : Option Int) :
    (∀ k1 k2 : String, k1 = k2 → generate_job_id k1 = generate_job_id k2) ∧
    (check_idempotency redis (defaultScanKey scan_run_id idempotency_key) = true →
      enqueue_scan redis scan_run_id idempotency_key request_id user_id org_id =
        (none, redis)) ∧
    (check_idempotency redis (defaultScanKey scan_run_id idempotency_key) = false →
      enqueue_scan redis scan_run_id idempotency_key request_id user_id org_id =
        (some { id := generate_job_id (defaultScanKey scan_run_id idempotency_key),
                queue := "scans", func := "app.jobs.scan_executor.execute_scan_run",
                arg := scan_run_id,
                meta := { idempotency_key := defaultScanKey scan_run_id idempotency_key,
                          request_id := request_id, user_id := user_id,
                          org_id := org_id, retry_count := 0 },
                timeout := "30m" },
         redisSetex redis
           ("idempotency:" ++ defaultScanKey scan_run_id idempotency_key)
           (generate_job_id (defaultScanKey scan_run_id idempotency_key)) 86400)) := by
  refine ⟨fun k1 k2 hk => hk ▸ rfl, fun h => ?_, fun h => ?_⟩
  · unfold enqueue_scan
    rw [if_pos h]
  · unfold enqueue_scan
    rw [if_neg (by simp [h])]
    rfl

/-- Witness for C9: a pre-existing marker suppresses the enqueue; with an
empty Redis the enqueue returns a job. -/
theorem enqueue_scan_deterministic_and_deduplicated_witness :
    check_idempotency [{ key := "idempotency:k-0123456789abcdef", value := "x",
                         ttl := 86400 }] (defaultScanKey 7 (some "k-0123456789abcdef")) =
      true ∧
    enqueue_scan [{ key := "idempotency:k-0123456789abcdef", value := "x",
                    ttl := 86400 }] 7 (some "k-0123456789abcdef") none none none =
      (none, [{ key := "idempotency:k-0123456789abcdef", value := "x",
                ttl := 86400 }]) ∧
    (enqueue_scan [] 7 (some "k-0123456789abcdef") none none none).1.isSome = true := by
  refine ⟨by rfl, ?_, ?_⟩
  · exact (enqueue_scan_deterministic_and_deduplicated
      [{ key := "idempotency:k-0123456789abcdef", value := "x", ttl := 86400 }]
      7 (some "k-0123456789abcdef") none none none).2.1 (by rfl)
  · rw [(enqueue_scan_deterministic_and_deduplicated
      [] 7 (some "k-0123456789abcdef") none none none).2.2 (by rfl)]
    rfl

/-! ## Worker retry / dead-letter handling (`apps/worker/app/main.py`) -/

/-- `WorkerConfig.MAX_RETRIES`. -/
def MAX_RETRIES : Nat := 3

/-- `WorkerConfig.RETRY_DELAYS` (seconds: 1 min, 5 min, 15 min). -/
def RETRY_DELAYS : List Nat := [60, 300, 900]

/-- `WorkerConfig.DLQ_NAME`. -/
def DLQ_NAME : String := "failed"

/-- A job as seen by the worker (`rq.job.Job`): id, originating queue, and
the `meta` dict carrying `retry_count`. -/
structure WorkerJob where
  id : String
  origin : String
  func : String
  arg : Nat
  meta : JobMeta
deriving DecidableEq, Repr

/-- The action taken by the failure callback. -/
inductive FailureAction where
  | retry (delaySeconds : Nat) (queue : String) (job : WorkerJob)
  | deadLetter (dlqJobId : String) (failedJobId : String) (failureReason : String)
deriving DecidableEq, Repr

/-- `job_failure_callback`: while `retry_count < MAX_RETRIES`, bump
`retry_count`, and re-enqueue the same payload on the origin queue after
`RETRY_DELAYS[min(retry_count, len-1)]` seconds under the job id
`f"{job.id}_retry_{retry_count+1}"`; otherwise push to the DLQ under
`f"dlq_{job.id}"` with the failure reason.  (In the source the DLQ
`dlq.enqueue(...)` call passes the keyword `job_id` twice — `job_id=job.id`
and `job_id=f"dlq_{job.id}"` — which is a Python `SyntaxError: keyword
argument repeated`, so the module cannot be imported; this models the
branch as intended, taking the RQ-level id from the second keyword.) -/
def job_failure_callback (job : WorkerJob) (value : String) : FailureAction :=
  let retry_count := job.meta.retry_count
  if retry_count < MAX_RETRIES then
    let retry_delay := RETRY_DELAYS.getD (min retry_count (RETRY_DELAYS.length - 1)) 0
    FailureAction.retry retry_delay job.origin
      { job with id := job.id ++ "_retry_" ++ toString (retry_count + 1),
                 meta := { job.meta with retry_count := retry_count + 1 } }
  else
    FailureAction.deadLetter ("dlq_" ++ job.id) job.id value

/-- Observable dispatcher events for a job every attempt of which fails. -/
inductive DispatchEvent where
  | attempt (jobId : String) (retry_count : Nat)
  | deadLettered (dlqJobId : String) (failedJobId : String)
deriving DecidableEq, Repr

/-- Drive an always-failing job through the failure callback: each attempt
fails, the callback decides between re-enqueue (with the bumped metadata)
and dead-lettering, and dead-lettering is terminal. -/
def run_always_failing (fuel : Nat) (job : WorkerJob) : List DispatchEvent :=
  match fuel with
  | 0 => []
  | fuel + 1 =>
      DispatchEvent.attempt job.id job.meta.retry_count ::
      match job_failure_callback job "boom" with
      | FailureAction.retry _ _ job' => run_always_failing fuel job'
      | FailureAction.deadLetter dlqId failedId _ =>
          [DispatchEvent.deadLettered dlqId failedId]

/-- C4: an always-failing job with `max_retries = 3` and `retry_count = 0`
produces exactly this trace — four attempts (retry counts 0,1,2,3, each
re-enqueued after the first three failures) and exactly one dead-letter
push, strictly after the fourth failure. -/
theorem retry_then_single_dead_letter :
    run_always_failing 10
        { id := "j1", origin := "scans",
          func := "app.jobs.scan_executor.execute_scan_run", arg := 1,
          meta := { idempotency_key := "k-0123456789abcdef", request_id := none,
                    user_id := none, org_id := none, retry_count := 0 } } =
      [DispatchEvent.attempt "j1" 0,
       DispatchEvent.attempt "j1_retry_1" 1,
       DispatchEvent.attempt "j1_retry_1_retry_2" 2,
       DispatchEvent.attempt "j1_retry_1_retry_2_retry_3" 3,
       DispatchEvent.deadLettered "dlq_j1_retry_1_retry_2_retry_3"
         "j1_retry_1_retry_2_retry_3"] := by
  rfl

end Prompter
